import Mathlib

/-!
# Verification of the MetaIntent clarification core

A shallow embedding of the MetaIntent repository's clarification state
machine (AmbiguityDetector, SubAgentOrchestrator, IntentSnapshotManager,
GoalEchoGenerator, MetaLoopEngine, FallbackHandler) in Lean 4, together
with theorems settling the frozen spec claims.

Modelling conventions:
* JavaScript strings are modelled as `List Char` (`Str`); the JS string
  methods used by the source (`toLowerCase`, `trim`, `includes`,
  `split(' ')`, `split(/[.!?]+/)`, `substring`, `join`) are embedded as
  executable functions with JS semantics restricted to ASCII text.
* JS numbers are modelled as `ℚ` (all numerals appearing in the source
  are exactly representable, so rational arithmetic agrees with IEEE
  doubles on every reachable value) and as `ℕ` where the source only
  ever produces naturals.
* Every asynchronous external effect (LLM backend call, DynamoDB
  read/write, cache lookup, `Date.now()`, `uuidv4()`) is an explicit
  parameter: the embedded function receives the outcome of the effect
  as an argument.  Logging is a no-op and is dropped.
-/

set_option maxRecDepth 8000

namespace MetaIntent

/-- JS strings are modelled as lists of characters. -/
abbrev Str := List Char

/-- The apostrophe character, written via its code point. -/
def apoC : Char := Char.ofNat 39

/-- One-character apostrophe string, used to build source literals
containing apostrophes. -/
def apoS : Str := [apoC]

/-- JS `String.prototype.toLowerCase`, restricted to ASCII letters. -/
def charToLower (c : Char) : Char :=
  if 65 ≤ c.toNat ∧ c.toNat ≤ 90 then Char.ofNat (c.toNat + 32) else c

/-- JS `String.prototype.toUpperCase` on one ASCII character. -/
def charToUpper (c : Char) : Char :=
  if 97 ≤ c.toNat ∧ c.toNat ≤ 122 then Char.ofNat (c.toNat - 32) else c

/-- `s.toLowerCase()`. -/
def jsToLowerCase (s : Str) : Str := s.map charToLower

/-- Is `pre` a prefix of `s` (character-wise)? -/
def prefixOfChars : Str → Str → Bool
  | [], _ => true
  | _ :: _, [] => false
  | a :: as, b :: bs => a == b && prefixOfChars as bs

/-- JS `s.includes(sub)`: contiguous substring containment. -/
def jsIncludes : Str → Str → Bool
  | [], sub => sub.isEmpty
  | c :: rest, sub => prefixOfChars sub (c :: rest) || jsIncludes rest sub

/-- The whitespace characters JS `trim` strips (ASCII fragment). -/
def isJsWhitespace (c : Char) : Bool :=
  c == ' ' || c == '\t' || c == '\n' || c == '\r'

/-- JS `s.trim()`. -/
def jsTrim (s : Str) : Str :=
  ((s.dropWhile isJsWhitespace).reverse.dropWhile isJsWhitespace).reverse

/-- Split a string at every character satisfying `p`, keeping empty
fields (the behaviour of JS `split` with a one-character separator). -/
def splitOnPred (p : Char → Bool) : Str → List Str
  | [] => [[]]
  | c :: rest =>
    if p c then [] :: splitOnPred p rest
    else
      match splitOnPred p rest with
      | [] => [[c]]
      | t :: ts => (c :: t) :: ts

/-- JS `s.split(' ')`. -/
def jsSplitSpace (s : Str) : List Str := splitOnPred (fun c => c == ' ') s

/-- The sentence delimiters of the source's `split(/[.!?]+/)`. -/
def isSentenceDelim (c : Char) : Bool := c == '.' || c == '!' || c == '?'

/-- Drop the empty fields produced by adjacent delimiters, keeping the
final field: together with keeping the head field this turns a
single-character split into a split on maximal delimiter runs. -/
def collapseInnerEmpties : List Str → List Str
  | [] => []
  | [x] => [x]
  | x :: y :: rest =>
    if x.isEmpty then collapseInnerEmpties (y :: rest)
    else x :: collapseInnerEmpties (y :: rest)

/-- JS `s.split(/[.!?]+/)`. -/
def jsSplitSentences (s : Str) : List Str :=
  match splitOnPred isSentenceDelim s with
  | [] => []
  | x :: rest => x :: collapseInnerEmpties rest

/-- JS `parts.join(sep)`. -/
def jsJoin (sep : Str) : List Str → Str
  | [] => []
  | [x] => x
  | x :: y :: rest => x ++ sep ++ jsJoin sep (y :: rest)

/-- JS `s.substring(0, n)`. -/
def jsTake (s : Str) (n : ℕ) : Str := s.take n

/-- ASCII digit test (the source's `/\d/`). -/
def isDigitChar (c : Char) : Bool := 48 ≤ c.toNat && c.toNat ≤ 57

def isAsciiUpper (c : Char) : Bool := 65 ≤ c.toNat && c.toNat ≤ 90

def isAsciiLower (c : Char) : Bool := 97 ≤ c.toNat && c.toNat ≤ 122

/-- The source's `/[A-Z][a-z]+/.test(input)`: some capital letter is
immediately followed by a lowercase letter. -/
def hasCapPair : Str → Bool
  | [] => false
  | [_] => false
  | a :: b :: rest => (isAsciiUpper a && isAsciiLower b) || hasCapPair (b :: rest)

/-!
## AmbiguityDetector (src/services/AmbiguityDetector.ts)

`analyze` races the Bedrock backend against a 5s timeout and parses a
JSON object out of the reply; on any failure it falls back to
`createDefaultAnalysis`.  The backend call plus JSON parsing is an
external effect and enters the model as an `Option AmbiguityAnalysis`
oracle (`none` = backend failure, timeout, or parse failure).
-/

structure EmotionalMarker where
  type : Str
  confidence : ℚ
  evidence : Str
deriving DecidableEq, Repr

structure AmbiguitySignals where
  hedgingLanguage : List Str
  contradictions : List Str
  emotionalMarkers : List EmotionalMarker
  vagueTerms : List Str
  multipleTopics : List Str
deriving DecidableEq, Repr

structure AmbiguityAnalysis where
  score : ℚ
  signals : AmbiguitySignals
  recommendedStrategy : Str
  reasoning : Str
deriving DecidableEq, Repr

/-- `ExtractedIntent` of IntentSnapshot.ts: all fields optional. -/
structure ExtractedIntent where
  goal : Option Str
  scope : Option Str
  constraints : Option (List Str)
  successCriteria : Option (List Str)
  emotionalContext : Option Str
deriving DecidableEq, Repr

/-- `DriftVector` of IntentSnapshot.ts.  The source field `from` is a
Lean keyword and is embedded as `fromId`. -/
structure DriftVector where
  fromId : Str
  changes : List Str
  reason : Str
  magnitude : ℚ
deriving DecidableEq, Repr

/-- `IntentSnapshot` of IntentSnapshot.ts. -/
structure IntentSnapshot where
  snapshotId : Str
  sessionId : Str
  timestamp : ℕ
  ambiguityScore : ℚ
  userInput : Str
  extractedIntent : ExtractedIntent
  confidence : ℚ
  driftVector : Option DriftVector
deriving DecidableEq, Repr

namespace AmbiguityDetector

def hedgingWords : List Str :=
  ["maybe".toList, "perhaps".toList, "kind of".toList, "sort of".toList,
   "i think".toList, "not sure".toList, "possibly".toList, "might".toList,
   "could".toList]

def vagueWords : List Str :=
  ["stuff".toList, "things".toList, "something".toList, "whatever".toList,
   "anything".toList, "somehow".toList]

def uncertainPhrases : List Str :=
  [("don".toList ++ apoS ++ "t know".toList), "not sure".toList,
   "unclear".toList, "confused".toList, "unsure".toList]

def genericActions : List Str :=
  ["build".toList, "make".toList, "create".toList, "do".toList,
   "help".toList, "work".toList]

/-- `calculateSimpleAmbiguityScore` of AmbiguityDetector.ts. -/
def calculateSimpleAmbiguityScore (input : Str) : ℕ :=
  let lower := jsToLowerCase input
  let words := jsSplitSpace input
  let s1 := hedgingWords.foldl (fun s w => if jsIncludes lower w then s + 20 else s) 0
  let s2 := vagueWords.foldl (fun s w => if jsIncludes lower w then s + 25 else s) s1
  let s3 := uncertainPhrases.foldl (fun s w => if jsIncludes lower w then s + 30 else s) s2
  let s4 := if jsIncludes input "?".toList then s3 + 15 else s3
  let s5 := if words.length < 5 then s4 + 30 else s4
  let hasNumbers := input.any isDigitChar
  let hasCapitalizedWords := hasCapPair input
  let s6 := if !hasNumbers && !hasCapitalizedWords && decide (words.length < 10)
    then s5 + 20 else s5
  let hasGenericAction := genericActions.any (fun a => jsIncludes lower a)
  let hasSpecificDetails := decide (words.length > 8) || hasNumbers
    || jsIncludes lower "for".toList || jsIncludes lower "with".toList
  let s7 := if hasGenericAction && !hasSpecificDetails then s6 + 25 else s6
  min 100 s7

/-- `detectSimpleSignals` of AmbiguityDetector.ts. -/
def detectSimpleSignals (input : Str) : AmbiguitySignals :=
  let lower := jsToLowerCase input
  let hedging := ["maybe".toList, "perhaps".toList, "kind of".toList,
    "sort of".toList, "i think".toList, "not sure".toList].filter
    (fun w => jsIncludes lower w)
  let vague := ["stuff".toList, "things".toList, "something".toList,
    "whatever".toList].filter (fun w => jsIncludes lower w)
  let m1 : List EmotionalMarker :=
    if jsIncludes lower "frustrated".toList || jsIncludes lower "annoying".toList then
      [{ type := "frustration".toList, confidence := 0.7,
         evidence := "frustrated/annoying language detected".toList }]
    else []
  let m2 : List EmotionalMarker :=
    if jsIncludes lower "excited".toList || jsIncludes lower "amazing".toList then
      [{ type := "excitement".toList, confidence := 0.7,
         evidence := "excited/positive language detected".toList }]
    else []
  let m3 : List EmotionalMarker :=
    if jsIncludes lower "confused".toList || jsIncludes lower "not sure".toList then
      [{ type := "confusion".toList, confidence := 0.8,
         evidence := "confusion indicators detected".toList }]
    else []
  { hedgingLanguage := hedging
    contradictions := []
    emotionalMarkers := m1 ++ m2 ++ m3
    vagueTerms := vague
    multipleTopics := [] }

/-- `createDefaultAnalysis` of AmbiguityDetector.ts: the deterministic
heuristic fallback. -/
def createDefaultAnalysis (input : Str) : AmbiguityAnalysis :=
  let score := calculateSimpleAmbiguityScore input
  { score := (score : ℚ)
    signals := detectSimpleSignals input
    recommendedStrategy := if score > 70 then "multi".toList else "scope".toList
    reasoning := "Fallback analysis based on simple heuristics".toList }

/-- `analyze` of AmbiguityDetector.ts.  `backendAnalysis` is the oracle
for the Bedrock call plus JSON parse: `some a` means the race and parse
produced analysis `a`; `none` means backend failure, timeout or parse
failure, on which the source falls back to the heuristic. -/
def analyze (backendAnalysis : Option AmbiguityAnalysis) (userInput : Str)
    (_conversationHistory : List Str) : AmbiguityAnalysis :=
  match backendAnalysis with
  | some a => a
  | none => createDefaultAnalysis userInput

/-- The claim's description of the heuristic score, as one arithmetic
sum over counts of matched words. -/
def specHeuristicScore (input : Str) : ℕ :=
  let lower := jsToLowerCase input
  let words := jsSplitSpace input
  let hasNumbers := input.any isDigitChar
  let hasCapitalizedWords := hasCapPair input
  let hasGenericAction := genericActions.any (fun a => jsIncludes lower a)
  let hasSpecificDetails := decide (words.length > 8) || hasNumbers
    || jsIncludes lower "for".toList || jsIncludes lower "with".toList
  min 100
    (20 * hedgingWords.countP (fun w => jsIncludes lower w)
     + 25 * vagueWords.countP (fun w => jsIncludes lower w)
     + 30 * uncertainPhrases.countP (fun w => jsIncludes lower w)
     + (if jsIncludes input "?".toList then 15 else 0)
     + (if words.length < 5 then 30 else 0)
     + (if !hasNumbers && !hasCapitalizedWords && decide (words.length < 10)
        then 20 else 0)
     + (if hasGenericAction && !hasSpecificDetails then 25 else 0))

end AmbiguityDetector

/-!
## SubAgentOrchestrator (src/services/SubAgentOrchestrator.ts)

Agents live in the orchestrator's in-memory registry keyed by agent id;
`processResponse(agentId, r)` and `generateNextQuestion(agent, ctx)`
mutate the looked-up agent.  The embedding works on the agent value
directly.  `uuidv4()` and the LLM adapter call of question generation
are external and enter as parameters.
-/

inductive SubAgentType where
  | scope
  | constraints
  | outcomes
  | emotions
deriving DecidableEq, Repr

inductive AgentStatus where
  | active
  | completed
  | failed
deriving DecidableEq, Repr

structure QAEntry where
  question : Str
  answer : Str
  timestamp : ℕ
deriving DecidableEq, Repr

structure SubAgentSandbox where
  context : List (Str × Str)
  findings : List Str
  confidence : ℚ
  conversationHistory : List QAEntry
deriving DecidableEq, Repr

structure SubAgent where
  agentId : Str
  type : SubAgentType
  status : AgentStatus
  sandbox : SubAgentSandbox
  currentQuestion : Option Str
  questionsAsked : ℕ
  maxQuestions : ℕ
deriving DecidableEq, Repr

namespace SubAgentOrchestrator

/-- `determineAgentTypes` of SubAgentOrchestrator.ts. -/
def determineAgentTypes (strategy : Str) (ambiguityScore : ℚ) : List SubAgentType :=
  if strategy = "multi".toList ∨ ambiguityScore > 70 then
    [.scope, .constraints, .outcomes]
  else if strategy = "scope".toList then [.scope]
  else if strategy = "constraints".toList then [.constraints]
  else if strategy = "outcomes".toList then [.outcomes]
  else if strategy = "emotions".toList then [.emotions, .outcomes]
  else [.scope, .outcomes]

/-- `createAgent` of SubAgentOrchestrator.ts; `agentId` stands for the
`uuidv4()` call. -/
def createAgent (agentId : Str) (type : SubAgentType) (initialInput : Str) : SubAgent :=
  { agentId := agentId
    type := type
    status := .active
    sandbox :=
      { context := [("initialInput".toList, initialInput)]
        findings := []
        confidence := 0
        conversationHistory := [] }
    currentQuestion := none
    questionsAsked := 0
    maxQuestions := 2 }

/-- `getFallbackQuestion` of SubAgentOrchestrator.ts: curated question
banks indexed by `questionNumber % 3`. -/
def getFallbackQuestion (type : SubAgentType) (questionNumber : ℕ) : Str :=
  let questions : List Str :=
    match type with
    | .scope =>
      ["What is the scale or size of what you want to accomplish?".toList,
       "Who else is involved or affected by this?".toList,
       "What specific areas should this focus on, and what should it avoid?".toList]
    | .constraints =>
      ["What limitations or restrictions do you need to work within?".toList,
       "What resources (time, budget, tools) do you have available?".toList,
       "Are there any requirements or rules that must be followed?".toList]
    | .outcomes =>
      ["What would success look like for this?".toList,
       "How will you know when this is complete or working well?".toList,
       "What specific results are you hoping to achieve?".toList]
    | .emotions =>
      ["What motivated you to pursue this?".toList,
       "What concerns or worries do you have about this?".toList,
       "How do you feel about the current situation?".toList]
  questions.getD (questionNumber % questions.length) []

/-- `getSmartQuestion` of SubAgentOrchestrator.ts. -/
def getSmartQuestion (agent : SubAgent) (userContext : Str) : Str :=
  let lower := jsToLowerCase userContext
  let hasAnswered := agent.sandbox.conversationHistory.length > 0
  match agent.type with
  | .scope =>
    if ¬hasAnswered then
      if jsIncludes lower "build".toList || jsIncludes lower "create".toList
          || jsIncludes lower "make".toList then
        "What specific thing do you want to build or create?".toList
      else if jsIncludes lower "help".toList || jsIncludes lower "assist".toList then
        "Who or what do you want to help, and in what way?".toList
      else "Can you describe what you want to accomplish in more detail?".toList
    else if agent.questionsAsked = 1 then
      if jsIncludes lower "app".toList || jsIncludes lower "website".toList
          || jsIncludes lower "software".toList then
        "What are the main features or pages this should have?".toList
      else "What should be included in this, and what should be left out?".toList
    else
      "Who is this for, and what scale are you thinking (personal, team, public)?".toList
  | .constraints =>
    if ¬hasAnswered then
      "What limitations do you have (time, budget, technical skills, etc.)?".toList
    else if agent.questionsAsked = 1 then
      "Are there any specific requirements or rules you need to follow?".toList
    else "What tools or resources do you already have available?".toList
  | .outcomes =>
    if ¬hasAnswered then
      "What would success look like? How will you know it".toList ++ apoS ++ "s working?".toList
    else if agent.questionsAsked = 1 then
      "What specific results or outcomes are you hoping for?".toList
    else "How will you measure whether this is successful?".toList
  | .emotions =>
    if ¬hasAnswered then
      if jsIncludes lower "frustrated".toList || jsIncludes lower "stuck".toList then
        "What".toList ++ apoS ++ "s been frustrating you about this? What have you tried?".toList
      else if jsIncludes lower "excited".toList || jsIncludes lower "want".toList then
        "What excites you most about this idea?".toList
      else "What motivated you to start thinking about this?".toList
    else if agent.questionsAsked = 1 then
      "What concerns or worries do you have about moving forward?".toList
    else "What would make you feel confident that this is the right direction?".toList

/-- `generateNextQuestion` of SubAgentOrchestrator.ts.  `llmResult` is
the oracle for the primary-adapter call: `some content` when the call
returned `content`, `none` when it threw (the source then falls back to
`getSmartQuestion`, guarded by `getFallbackQuestion`).  The source
mutates `agent.currentQuestion` and returns the question; the embedding
returns the updated agent. -/
def generateNextQuestion (llmResult : Option Str) (agent : SubAgent) (userContext : Str) :
    SubAgent :=
  match llmResult with
  | some content => { agent with currentQuestion := some (jsTrim content) }
  | none =>
    let question := getSmartQuestion agent userContext
    if question.isEmpty || (jsTrim question).isEmpty then
      { agent with currentQuestion := some (getFallbackQuestion agent.type agent.questionsAsked) }
    else { agent with currentQuestion := some question }

/-- `spawnAgents` of SubAgentOrchestrator.ts.  `ids i` is the
`uuidv4()` of the i-th created agent, `llmQuestions i` the outcome of
its initial question-generation LLM call. -/
def spawnAgents (ids : ℕ → Str) (llmQuestions : ℕ → Option Str)
    (recommendedStrategy : Str) (userInput : Str) (ambiguityScore : ℚ) : List SubAgent :=
  let agentTypes := determineAgentTypes recommendedStrategy ambiguityScore
  let agents := ((List.range agentTypes.length).zip agentTypes).map
    (fun p => createAgent (ids p.1) p.2 userInput)
  ((List.range agents.length).zip agents).map
    (fun p => generateNextQuestion (llmQuestions p.1) p.2 userInput)

/-- The `noInfoResponses` phrase list of `processResponse`. -/
def noInfoResponses : List Str :=
  [("i don".toList ++ apoS ++ "t know".toList),
   ("don".toList ++ apoS ++ "t know".toList),
   "not sure".toList, "no idea".toList,
   "idk".toList, "dunno".toList, "no".toList, "nothing".toList,
   "none".toList, "skip".toList]

/-- The no-info test of `processResponse`:
`noInfoResponses.some(phrase => lower === phrase || lower.includes(phrase))`
on `userResponse.toLowerCase().trim()`. -/
def isNoInfoResponse (userResponse : Str) : Bool :=
  let lower := jsTrim (jsToLowerCase userResponse)
  noInfoResponses.any (fun phrase => lower == phrase || jsIncludes lower phrase)

/-- `extractFindings` of SubAgentOrchestrator.ts (the live simple
extraction; the Bedrock version is commented out in the source). -/
def extractFindings (response : Str) : List Str :=
  let sentences := (jsSplitSentences response).filter (fun s => 10 < (jsTrim s).length)
  let findings := (sentences.take 3).map jsTrim
  if findings.isEmpty then [jsTake response 100] else findings

/-- `processResponse` of SubAgentOrchestrator.ts, on the agent looked
up from the registry (`now` stands for `Date.now()`).  The guard
`!agent || !agent.currentQuestion` makes the call a no-op when the
current question is absent or the empty string. -/
def processResponse (agent : SubAgent) (userResponse : Str) (now : ℕ) : SubAgent :=
  match agent.currentQuestion with
  | none => agent
  | some q =>
    if q.isEmpty then agent
    else
      let agent1 := { agent with
        sandbox := { agent.sandbox with
          conversationHistory :=
            agent.sandbox.conversationHistory ++ [(⟨q, userResponse, now⟩ : QAEntry)] }
        questionsAsked := agent.questionsAsked + 1 }
      if isNoInfoResponse userResponse then
        { agent1 with status := .completed }
      else
        let agent2 := { agent1 with
          sandbox := { agent1.sandbox with
            findings := agent1.sandbox.findings ++ extractFindings userResponse
            confidence := min 1 (agent1.sandbox.confidence + 0.4) } }
        if agent2.questionsAsked ≥ agent2.maxQuestions ∨ agent2.sandbox.confidence > 0.8 then
          { agent2 with status := .completed }
        else agent2

/-- `synthesizeFindings` of SubAgentOrchestrator.ts.  `llmSynthesis` is
the oracle for the adapter call plus JSON parse: `some (summary,
intent)` for a parsed reply, `none` for failure or no JSON match (the
source then falls back to the deterministic synthesis).  Both paths
use the mean sandbox confidence. -/
structure SynthesisResult where
  summary : Str
  extractedIntent : ExtractedIntent
  confidence : ℚ
deriving DecidableEq, Repr

def synthesizeFindings (llmSynthesis : Option (Str × ExtractedIntent))
    (agents : List SubAgent) : SynthesisResult :=
  let avgConfidence := ((agents.map (fun a => a.sandbox.confidence)).sum) / (agents.length : ℚ)
  match llmSynthesis with
  | some (summary, intent) =>
    { summary := summary, extractedIntent := intent, confidence := avgConfidence }
  | none =>
    let allFindings := (agents.map (fun a => a.sandbox.findings)).flatten
    let summary := "Based on your responses: ".toList
      ++ jsJoin ". ".toList (allFindings.take 3) ++ ".".toList
    let goal :=
      match allFindings.find? (fun f => 20 < f.length) with
      | some f => f
      | none => "User goal clarified".toList
    let scope :=
      match agents.find? (fun a => a.type == SubAgentType.scope) with
      | some a =>
        match a.sandbox.findings.head? with
        | some f => if f.isEmpty then "Scope defined".toList else f
        | none => "Scope defined".toList
      | none => "Scope defined".toList
    let constraints :=
      match agents.find? (fun a => a.type == SubAgentType.constraints) with
      | some a => a.sandbox.findings
      | none => []
    let successCriteria :=
      match agents.find? (fun a => a.type == SubAgentType.outcomes) with
      | some a => a.sandbox.findings
      | none => []
    { summary := summary
      extractedIntent :=
        { goal := some goal, scope := some scope, constraints := some constraints
          successCriteria := some successCriteria, emotionalContext := none }
      confidence := avgConfidence }

end SubAgentOrchestrator

/-!
## IntentSnapshotManager (src/services/IntentSnapshot.ts)

Snapshots are persisted to DynamoDB; reads and writes are external.
`calculateDrift` itself is pure and is embedded verbatim.
-/

namespace IntentSnapshotManager

/-- JS template interpolation of a possibly-undefined string (an
undefined value renders as "undefined"). -/
def optStr (o : Option Str) : Str := o.getD "undefined".toList

/-- JS `x.toFixed(0)` for the non-negative values the source renders
with it (round-half-up to an integer, printed in decimal). -/
def jsToFixed0 (q : ℚ) : Str := (toString (round q)).toList

/-- `inferDriftReason` of IntentSnapshot.ts. -/
def inferDriftReason (changes : List Str) : Str :=
  if changes.isEmpty then "No significant changes".toList
  else if changes.any (fun c => jsIncludes c "Goal changed".toList) then
    "User refined or pivoted their goal".toList
  else if changes.any (fun c => jsIncludes c "Clarity improved".toList) then
    "Clarification process working".toList
  else if changes.any (fun c => jsIncludes c "constraints".toList) then
    "User added more context about limitations".toList
  else if changes.any (fun c => jsIncludes c "success criteria".toList) then
    "User clarified desired outcomes".toList
  else "Intent evolved through conversation".toList

/-- `calculateDrift` of IntentSnapshot.ts.  The source accumulates
`changes` and `magnitude` under one conditional per field; the
embedding tracks the two accumulators in separate lets with the same
conditions. -/
def calculateDrift (previous current : IntentSnapshot) : DriftVector :=
  let changes0 : List Str := []
  let mag0 : ℚ := 0
  let goalNe := previous.extractedIntent.goal ≠ current.extractedIntent.goal
  let changes1 := if goalNe then
      changes0 ++ ["Goal changed from \"".toList ++ optStr previous.extractedIntent.goal
        ++ "\" to \"".toList ++ optStr current.extractedIntent.goal ++ "\"".toList]
    else changes0
  let mag1 := if goalNe then mag0 + 0.4 else mag0
  let scopeNe := previous.extractedIntent.scope ≠ current.extractedIntent.scope
  let changes2 := if scopeNe then
      changes1 ++ ["Scope refined: ".toList ++ optStr current.extractedIntent.scope]
    else changes1
  let mag2 := if scopeNe then mag1 + 0.2 else mag1
  let prevConstraints := previous.extractedIntent.constraints.getD []
  let currConstraints := current.extractedIntent.constraints.getD []
  let newConstraints := currConstraints.filter (fun c => !(prevConstraints.contains c))
  let changes3 := if newConstraints.length > 0 then
      changes2 ++ ["Added constraints: ".toList ++ jsJoin ", ".toList newConstraints]
    else changes2
  let mag3 := if newConstraints.length > 0 then
      mag2 + 0.15 * (newConstraints.length : ℚ) else mag2
  let prevCriteria := previous.extractedIntent.successCriteria.getD []
  let currCriteria := current.extractedIntent.successCriteria.getD []
  let newCriteria := currCriteria.filter (fun c => !(prevCriteria.contains c))
  let changes4 := if newCriteria.length > 0 then
      changes3 ++ ["Added success criteria: ".toList ++ jsJoin ", ".toList newCriteria]
    else changes3
  let mag4 := if newCriteria.length > 0 then
      mag3 + 0.15 * (newCriteria.length : ℚ) else mag3
  let scoreDelta := |current.ambiguityScore - previous.ambiguityScore|
  let changes5 := if scoreDelta > 20 then
      changes4 ++ ["Clarity ".toList
        ++ (if current.ambiguityScore < previous.ambiguityScore then "improved".toList
            else "decreased".toList)
        ++ " by ".toList ++ jsToFixed0 scoreDelta ++ " points".toList]
    else changes4
  let mag5 := if scoreDelta > 20 then mag4 + scoreDelta / 200 else mag4
  { fromId := previous.snapshotId
    changes := changes5
    reason := inferDriftReason changes5
    magnitude := min 1 mag5 }

/-- The claim's description of the drift magnitude, as one sum over
the changed-field indicators. -/
def driftMagnitudeRaw (goalChanged scopeChanged : Bool) (newConstraints newCriteria : ℕ)
    (scoreDelta : ℚ) : ℚ :=
  (if goalChanged then 0.4 else 0) + (if scopeChanged then 0.2 else 0)
    + 0.15 * (newConstraints : ℚ) + 0.15 * (newCriteria : ℚ)
    + (if scoreDelta > 20 then scoreDelta / 200 else 0)

/-- `createSnapshot` of IntentSnapshot.ts: `snapshotId` stands for
`uuidv4()`, `now` for `Date.now()`, and `prevLookup` for the DynamoDB
`getSnapshot` read of `previousSnapshotId`; the drift vector is
attached only when the id was passed and the read found the previous
snapshot.  The `saveSnapshot` write does not affect the return
value. -/
def createSnapshot (snapshotId : Str) (now : ℕ) (prevLookup : Option IntentSnapshot)
    (sessionId userInput : Str) (ambiguityScore : ℚ) (extractedIntent : ExtractedIntent)
    (confidence : ℚ) (previousSnapshotId : Option Str) : IntentSnapshot :=
  let snapshot : IntentSnapshot :=
    { snapshotId := snapshotId, sessionId := sessionId, timestamp := now
      ambiguityScore := ambiguityScore, userInput := userInput
      extractedIntent := extractedIntent, confidence := confidence
      driftVector := none }
  match previousSnapshotId, prevLookup with
  | some _, some previousSnapshot =>
    { snapshot with driftVector := some (calculateDrift previousSnapshot snapshot) }
  | _, _ => snapshot

end IntentSnapshotManager

/-!
## FallbackHandler (src/services/fallback.ts)

`handle` tries four tiers in order: an alternative LLM backend, a
cache lookup, a static canned response, then a terminal manual-input
response.  The adapter invoke (tier 1) and the cache lookup (tier 2)
are external calls and enter through `FallbackEnv`; `Except.error`
models a thrown exception, which the source logs and swallows.
-/

/-- `FallbackStrategy` of models/types.ts. -/
inductive FallbackStrategy where
  | cache
  | alternative_backend
  | static_flow
  | manual
deriving DecidableEq, Repr

/-- Typed stand-in for the `any`-typed `response` payload of the
cascade: an adapter reply, a cached response, one of the
`STATIC_RESPONSES` objects, or the manual-input message. -/
inductive FallbackPayload where
  | backendResponse (content : Str)
  | cachedResponse (data : Str)
  | staticResponse (intent : Str) (confidence : ℚ) (nextAction : Str)
  | manualMessage (message : Str)
deriving DecidableEq, Repr

/-- `FallbackRequest` of models/types.ts.  `originalRequest` is `any`;
the cascade reads only its `type` field (`none` = absent, which the
source's `|| ''` turns into the empty string). -/
structure FallbackRequest where
  originalRequestType : Option Str
  failureReason : Str
  attemptedBackends : List Str
  sessionId : Str
deriving DecidableEq, Repr

/-- `FallbackResponse` of models/types.ts. -/
structure FallbackResponse where
  strategy : FallbackStrategy
  response : FallbackPayload
  requiresUserInput : Bool
deriving DecidableEq, Repr

/-- Outcomes of the cascade's two external calls. -/
structure FallbackEnv where
  alternativeBackendResult : Except Unit Str
  cacheResult : Except Unit (Option Str)

namespace FallbackHandler

/-- `STATIC_RESPONSES.IDENTITY_VERIFICATION_PROMPT` of constants.ts. -/
def IDENTITY_VERIFICATION_PROMPT : FallbackPayload :=
  .staticResponse "verify_identity".toList 0.8
    "Please provide your full name, date of birth, and document ID".toList

/-- `STATIC_RESPONSES.CLARIFICATION_PROMPT` of constants.ts. -/
def CLARIFICATION_PROMPT : FallbackPayload :=
  .staticResponse "clarify".toList 0.9
    "Could you please provide more information?".toList

/-- `getStaticResponse` of fallback.ts. -/
def getStaticResponse (request : FallbackRequest) : Option FallbackPayload :=
  let requestType := request.originalRequestType.getD []
  if jsIncludes requestType "identity".toList || jsIncludes requestType "verify".toList then
    some IDENTITY_VERIFICATION_PROMPT
  else if jsIncludes requestType "clarify".toList
      || jsIncludes requestType "intent".toList then
    some CLARIFICATION_PROMPT
  else none

/-- Tier 1's guard in `handle`: an alternative backend exists unless
both bedrock and nim were already attempted. -/
def tier1Eligible (request : FallbackRequest) : Bool :=
  !(request.attemptedBackends.contains "bedrock".toList)
    || !(request.attemptedBackends.contains "nim".toList)

/-- What tier 1 yields: `none` when the tier is skipped (both backends
attempted) or the alternative invoke threw. -/
def tier1Response (env : FallbackEnv) (request : FallbackRequest) : Option Str :=
  if tier1Eligible request then
    match env.alternativeBackendResult with
    | .ok content => some content
    | .error _ => none
  else none

/-- What tier 2 yields: `none` when the lookup threw or missed. -/
def tier2Response (env : FallbackEnv) : Option Str :=
  match env.cacheResult with
  | .ok (some cached) => some cached
  | _ => none

/-- The terminal manual-input response of tier 4. -/
def manualResponse : FallbackResponse :=
  { strategy := .manual
    response := .manualMessage ("We are experiencing technical difficulties. "
      ++ "Please try again or provide more information.").toList
    requiresUserInput := true }

/-- Tiers 3-4 of `handle`. -/
def handleFromTier3 (request : FallbackRequest) : FallbackResponse :=
  match getStaticResponse request with
  | some staticResp =>
    { strategy := .static_flow, response := staticResp, requiresUserInput := false }
  | none => manualResponse

/-- Tiers 2-4 of `handle` (a thrown cache lookup is swallowed). -/
def handleFromTier2 (env : FallbackEnv) (request : FallbackRequest) : FallbackResponse :=
  match env.cacheResult with
  | .ok (some cached) =>
    { strategy := .cache, response := .cachedResponse cached, requiresUserInput := false }
  | .ok none => handleFromTier3 request
  | .error _ => handleFromTier3 request

/-- `handle` of fallback.ts (logging dropped; a thrown alternative
invoke is swallowed). -/
def handle (env : FallbackEnv) (request : FallbackRequest) : FallbackResponse :=
  if tier1Eligible request then
    match env.alternativeBackendResult with
    | .ok content =>
      { strategy := .alternative_backend
        response := .backendResponse content
        requiresUserInput := false }
    | .error _ => handleFromTier2 env request
  else handleFromTier2 env request

end FallbackHandler

/-!
## GoalEchoGenerator (src/services/GoalEchoGenerator.ts)

A pure formatter; embedded verbatim.  `'x'.repeat(n)` is modelled with
`List.replicate` and truncated subtraction (the source never reaches a
negative repeat count for confidences in [0, 1]).
-/

structure GoalEcho where
  summary : Str
  confidence : ℚ
  needsConfirmation : Bool
  formattedDisplay : Str
deriving DecidableEq, Repr

namespace GoalEchoGenerator

/-- The type names as the source's string literals. -/
def typeStr : SubAgentType → Str
  | .scope => "scope".toList
  | .constraints => "constraints".toList
  | .outcomes => "outcomes".toList
  | .emotions => "emotions".toList

/-- `getConfidenceStars` of GoalEchoGenerator.ts. -/
def getConfidenceStars (confidence : ℚ) : Str :=
  let starCount := (round (confidence * 5)).toNat
  List.replicate starCount '⭐' ++ List.replicate (5 - starCount) '☆'

/-- `formatEcho` of GoalEchoGenerator.ts (JS truthiness of the
optional string fields: present and non-empty). -/
def formatEcho (intent : ExtractedIntent) (confidence : ℚ) : Str :=
  let stars := getConfidenceStars confidence
  let e0 := "🎯 **Here".toList ++ apoS ++ "s what I understand so far:**\n\n".toList
  let e1 := e0 ++ (match intent.goal with
    | some g => if g.isEmpty then [] else "**Goal:** ".toList ++ g ++ "\n\n".toList
    | none => [])
  let e2 := e1 ++ (match intent.scope with
    | some s => if s.isEmpty then [] else "**Scope:** ".toList ++ s ++ "\n\n".toList
    | none => [])
  let e3 := e2 ++ (match intent.constraints with
    | some cs =>
      if cs.length > 0 then
        "**Constraints:**\n".toList
          ++ (cs.map (fun c => "  • ".toList ++ c ++ "\n".toList)).flatten
          ++ "\n".toList
      else []
    | none => [])
  let e4 := e3 ++ (match intent.successCriteria with
    | some cs =>
      if cs.length > 0 then
        "**Success Looks Like:**\n".toList
          ++ (cs.map (fun c => "  • ".toList ++ c ++ "\n".toList)).flatten
          ++ "\n".toList
      else []
    | none => [])
  let e5 := e4 ++ (match intent.emotionalContext with
    | some ec => if ec.isEmpty then [] else "**Context:** ".toList ++ ec ++ "\n\n".toList
    | none => [])
  let e6 := e5 ++ "**Confidence:** ".toList
    ++ IntentSnapshotManager.jsToFixed0 (confidence * 100) ++ "% ".toList ++ stars
    ++ "\n\n".toList
  e6 ++ (if confidence > 0.7 then
      "✅ This looks pretty clear! Should we proceed with generating your agent?".toList
    else if confidence > 0.4 then
      "🔄 We".toList ++ apoS ++ "re making progress! Let".toList ++ apoS
        ++ "s refine this a bit more.".toList
    else
      "🤔 Let".toList ++ apoS
        ++ "s clarify a few more things to get this just right.".toList)

/-- `generateSummary` of GoalEchoGenerator.ts. -/
def generateSummary (intent : ExtractedIntent) : Str :=
  let parts : List Str :=
    (match intent.goal with
     | some g => if g.isEmpty then [] else [g]
     | none => [])
    ++ (match intent.scope with
        | some s => if s.isEmpty then [] else ["with scope: ".toList ++ s]
        | none => [])
    ++ (match intent.constraints with
        | some cs =>
          if cs.length > 0 then ["considering: ".toList ++ jsJoin ", ".toList cs] else []
        | none => [])
  let joined := jsJoin " ".toList parts
  if joined.isEmpty then "Intent being clarified".toList else joined

/-- `generateEcho` of GoalEchoGenerator.ts. -/
def generateEcho (extractedIntent : ExtractedIntent) (confidence : ℚ)
    (ambiguityScore : ℚ) : GoalEcho :=
  { summary := generateSummary extractedIntent
    confidence := confidence
    needsConfirmation := decide (confidence > 0.7 ∧ ambiguityScore < 40)
    formattedDisplay := formatEcho extractedIntent confidence }

/-- `generateProgressBar` of GoalEchoGenerator.ts. -/
def generateProgressBar (percent : ℚ) : Str :=
  let filled := (round (percent / 10)).toNat
  List.replicate filled '█' ++ List.replicate (10 - filled) '░'
    ++ " ".toList ++ IntentSnapshotManager.jsToFixed0 percent ++ "%".toList

/-- `generateProgressUpdate` of GoalEchoGenerator.ts. -/
def generateProgressUpdate (previousAmbiguity currentAmbiguity : ℚ)
    (questionsAsked : ℕ) : Str :=
  let improvement := previousAmbiguity - currentAmbiguity
  let m0 := "📊 **Progress Update** (Question ".toList
    ++ (toString questionsAsked).toList ++ "):\n\n".toList
  let m1 := m0 ++
    (if improvement > 20 then
      "🎉 Great progress! Clarity improved by ".toList
        ++ IntentSnapshotManager.jsToFixed0 improvement ++ " points.\n".toList
     else if improvement > 10 then
      "✨ Good! We".toList ++ apoS ++ "re getting clearer (".toList
        ++ IntentSnapshotManager.jsToFixed0 improvement ++ " points better).\n".toList
     else if improvement > 0 then
      "👍 Making progress (".toList
        ++ IntentSnapshotManager.jsToFixed0 improvement ++ " points clearer).\n".toList
     else
      "🤔 Let".toList ++ apoS ++ "s try a different angle to improve clarity.\n".toList)
  let clarityPercent := max 0 (100 - currentAmbiguity)
  let m2 := m1 ++ "\n**Current Clarity:** ".toList
    ++ IntentSnapshotManager.jsToFixed0 clarityPercent ++ "%\n".toList
  m2 ++ generateProgressBar clarityPercent ++ "\n".toList

/-- `generateClarificationPrompt` of GoalEchoGenerator.ts. -/
def generateClarificationPrompt (agentType : SubAgentType) (question : Str) : Str :=
  let icon : Str := match agentType with
    | .scope => "🎯".toList
    | .constraints => "⚙️".toList
    | .outcomes => "🏆".toList
    | .emotions => "💭".toList
  let capitalized := match typeStr agentType with
    | [] => []
    | c :: rest => charToUpper c :: rest
  icon ++ " **".toList ++ capitalized ++ " Clarification:**\n\n".toList ++ question

end GoalEchoGenerator

/-!
## MetaLoopEngine (src/services/MetaLoopEngine.ts)

The top-level state machine.  All external effects of one turn —
`Date.now()`, the ambiguity analysis, `uuidv4()` calls, the DynamoDB
snapshot read, and the LLM calls of spawning, synthesis and question
generation — are supplied through `EngineEnv`.  `saveSessionState` in
the source only logs and persists nothing, and is dropped.
-/

inductive MetaStatus where
  | detecting
  | clarifying
  | synthesizing
  | ready
  | completed
deriving DecidableEq, Repr

inductive Role where
  | user
  | assistant
deriving DecidableEq, Repr

structure ChatMessage where
  role : Role
  content : Str
  timestamp : ℕ
deriving DecidableEq, Repr

/-- `MetaLoopState` of MetaLoopEngine.ts. -/
structure MetaLoopState where
  sessionId : Str
  iteration : ℕ
  currentAmbiguityScore : ℚ
  previousAmbiguityScore : Option ℚ
  activeSubAgents : List SubAgent
  conversationHistory : List ChatMessage
  intentSnapshots : List IntentSnapshot
  currentGoalEcho : Option GoalEcho
  status : MetaStatus
deriving DecidableEq, Repr

structure SessionResult where
  state : MetaLoopState
  response : Str
  needsClarification : Bool
deriving DecidableEq, Repr

/-- Outcomes of one engine turn's external effects. -/
structure EngineEnv where
  now : ℕ
  analysis : AmbiguityAnalysis
  snapshotId : Str
  prevSnapshotLookup : Option IntentSnapshot
  spawnIds : ℕ → Str
  spawnLLMQuestions : ℕ → Option Str
  synthLLM : Option (Str × ExtractedIntent)
  nextQuestionLLM : ℕ → Option Str

namespace MetaLoopEngine

/-- `extractIntentFromAnalysis` of MetaLoopEngine.ts. -/
def extractIntentFromAnalysis (analysis : AmbiguityAnalysis) (input : Str) :
    ExtractedIntent :=
  { goal := if input.length > 10 then some (jsTake input 100) else none
    scope := none
    constraints := none
    successCriteria := none
    emotionalContext :=
      if analysis.signals.emotionalMarkers.length > 0 then
        some ("User shows: ".toList
          ++ jsJoin ", ".toList (analysis.signals.emotionalMarkers.map (fun e => e.type)))
      else none }

/-- The per-agent loop of `generateClarificationResponse` (the `\n\n`
separator is appended inside the question guard, for every index but
the last). -/
def clarPromptsGo (total : ℕ) : ℕ → List SubAgent → Str
  | _, [] => []
  | i, agent :: rest =>
    (match agent.currentQuestion with
     | some q =>
       if q.isEmpty then []
       else
         GoalEchoGenerator.generateClarificationPrompt agent.type q
           ++ (if i < total - 1 then "\n\n".toList else [])
     | none => [])
    ++ clarPromptsGo total (i + 1) rest

/-- `generateClarificationResponse` of MetaLoopEngine.ts. -/
def generateClarificationResponse (state : MetaLoopState)
    (analysis : AmbiguityAnalysis) : Str :=
  let r0 := "ðŸ” **I notice some ambiguity in your request.**\n\n".toList
  let r1 := r0 ++ (if analysis.signals.hedgingLanguage.length > 0 then
      "I detected some uncertainty: \"".toList
        ++ jsJoin "\", \"".toList analysis.signals.hedgingLanguage ++ "\"\n".toList
    else [])
  let r2 := r1 ++ (if analysis.signals.vagueTerms.length > 0 then
      "Some terms need clarification: \"".toList
        ++ jsJoin "\", \"".toList analysis.signals.vagueTerms ++ "\"\n".toList
    else [])
  let r3 := r2 ++ "\n".toList ++ analysis.reasoning ++ "\n\n".toList
  let r4 := r3 ++ "Let me ask a few questions to help clarify:\n\n".toList
  r4 ++ clarPromptsGo state.activeSubAgents.length 0 state.activeSubAgents

/-- The per-active-agent loop of `generateNextQuestions`: each active
agent gets its next question generated (mutating `currentQuestion`),
and contributes a prompt block; a blank question falls back to the
generic per-type question.  `i` counts active agents only, matching
the source's iteration over the filtered list. -/
def nextQuestionsGo (qLLM : ℕ → Option Str) (lastMsg : Str) (nActive : ℕ) :
    ℕ → List SubAgent → (List SubAgent × Str)
  | _, [] => ([], [])
  | i, agent :: rest =>
    if agent.status = .active then
      let agent1 := SubAgentOrchestrator.generateNextQuestion (qLLM i) agent lastMsg
      let question := agent1.currentQuestion.getD []
      let piece :=
        if question ≠ [] ∧ (jsTrim question).length > 0 then
          GoalEchoGenerator.generateClarificationPrompt agent1.type question
            ++ (if nActive > 1 then "\n\n".toList else [])
        else
          GoalEchoGenerator.generateClarificationPrompt agent1.type
            ("Can you tell me more about the ".toList
              ++ GoalEchoGenerator.typeStr agent1.type
              ++ " of what you want to accomplish?".toList)
            ++ (if nActive > 1 then "\n\n".toList else [])
      let next := nextQuestionsGo qLLM lastMsg nActive (i + 1) rest
      (agent1 :: next.1, piece ++ next.2)
    else
      let next := nextQuestionsGo qLLM lastMsg nActive i rest
      (agent :: next.1, next.2)

/-- `generateNextQuestions` of MetaLoopEngine.ts, returning the
mutated agent list along with the response text. -/
def generateNextQuestions (env : EngineEnv) (state : MetaLoopState) :
    (List SubAgent × Str) :=
  let activeCount := (state.activeSubAgents.filter (fun a => a.status == .active)).length
  if activeCount = 0 then
    (state.activeSubAgents, "âœ… All clarifications complete!".toList)
  else
    let lastUserMessage := match state.conversationHistory.getLast? with
      | some m => m.content
      | none => []
    let result := nextQuestionsGo env.nextQuestionLLM lastUserMessage activeCount 0
      state.activeSubAgents
    (result.1, jsTrim result.2)

/-- Stable ascending insertion by timestamp (the comparator
`(a, b) => a.timestamp - b.timestamp` under a stable sort). -/
def insertByTimestamp (s : IntentSnapshot) : List IntentSnapshot → List IntentSnapshot
  | [] => [s]
  | t :: ts =>
    if s.timestamp ≤ t.timestamp then s :: t :: ts else t :: insertByTimestamp s ts

def sortByTimestamp : List IntentSnapshot → List IntentSnapshot
  | [] => []
  | s :: ss => insertByTimestamp s (sortByTimestamp ss)

/-- `getSessionSnapshots` of IntentSnapshot.ts on the raw DynamoDB
query result (the unmarshalling is external): sort by timestamp. -/
def getSessionSnapshots (storedSnapshots : List IntentSnapshot) : List IntentSnapshot :=
  sortByTimestamp storedSnapshots

/-- `loadSessionState` of MetaLoopEngine.ts: reconstruct a state from
the persisted snapshots; `none` when there are none.  The
reconstructed state always has `activeSubAgents = []`. -/
def loadSessionState (storedSnapshots : List IntentSnapshot) (sessionId : Str) :
    Option MetaLoopState :=
  let snapshots := getSessionSnapshots storedSnapshots
  match snapshots.getLast? with
  | none => none
  | some latestSnapshot =>
    some { sessionId := sessionId
           iteration := snapshots.length
           currentAmbiguityScore := latestSnapshot.ambiguityScore
           previousAmbiguityScore :=
             if snapshots.length > 1 then
               (snapshots.dropLast.getLast?).map (fun s => s.ambiguityScore)
             else none
           activeSubAgents := []
           conversationHistory := []
           intentSnapshots := snapshots
           currentGoalEcho := some (GoalEchoGenerator.generateEcho
             latestSnapshot.extractedIntent latestSnapshot.confidence
             latestSnapshot.ambiguityScore)
           status := if latestSnapshot.ambiguityScore < 40 then .ready else .clarifying }

/-- `startSession` of MetaLoopEngine.ts. -/
def startSession (env : EngineEnv) (sessionId initialInput : Str) : SessionResult :=
  let analysis := env.analysis
  let state0 : MetaLoopState :=
    { sessionId := sessionId
      iteration := 0
      currentAmbiguityScore := analysis.score
      previousAmbiguityScore := none
      activeSubAgents := []
      conversationHistory := [{ role := .user, content := initialInput, timestamp := env.now }]
      intentSnapshots := []
      currentGoalEcho := none
      status := if analysis.score > 60 then .clarifying else .ready }
  let snapshot := IntentSnapshotManager.createSnapshot env.snapshotId env.now
    env.prevSnapshotLookup sessionId initialInput analysis.score
    (extractIntentFromAnalysis analysis initialInput) 0.3 none
  let state1 := { state0 with intentSnapshots := state0.intentSnapshots ++ [snapshot] }
  if analysis.score > 60 then
    let agents := SubAgentOrchestrator.spawnAgents env.spawnIds env.spawnLLMQuestions
      analysis.recommendedStrategy initialInput analysis.score
    let state2 := { state1 with activeSubAgents := agents }
    let response := generateClarificationResponse state2 analysis
    let state3 := { state2 with conversationHistory := state2.conversationHistory
      ++ [{ role := .assistant, content := response, timestamp := env.now }] }
    { state := state3, response := response, needsClarification := true }
  else
    let goalEcho := GoalEchoGenerator.generateEcho snapshot.extractedIntent
      snapshot.confidence analysis.score
    let state2 := { state1 with currentGoalEcho := some goalEcho }
    let response := goalEcho.formattedDisplay ++ "\n\nReady to generate your agent!".toList
    let state3 := { state2 with conversationHistory := state2.conversationHistory
      ++ [{ role := .assistant, content := response, timestamp := env.now }] }
    { state := state3, response := response, needsClarification := false }

/-- The skip-phrase set of `continueSession` (distinct from the
orchestrator's no-info set). -/
def skipPhrases : List Str :=
  ["skip".toList, ("i don".toList ++ apoS ++ "t know".toList),
   ("don".toList ++ apoS ++ "t know".toList), "not sure".toList, "no idea".toList,
   "idk".toList, "dunno".toList]

/-- The skip test of `continueSession` on
`userResponse.toLowerCase().trim()`. -/
def wantsToSkip (userResponse : Str) : Bool :=
  let lower := jsTrim (jsToLowerCase userResponse)
  skipPhrases.any (fun phrase => lower == phrase || jsIncludes lower phrase)

/-- The skip branch's per-agent mutation: complete every still-active
agent and push the canned finding. -/
def markSkipped (a : SubAgent) : SubAgent :=
  if a.status = .active then
    { a with
      status := .completed
      sandbox := { a.sandbox with findings := a.sandbox.findings
        ++ ["User indicated uncertainty - proceeding with available information".toList] } }
  else a

/-- The agent-processing step of `continueSession`: on skip, complete
all active agents; otherwise run `processResponse` on every active
agent (completed and failed agents are untouched in both cases). -/
def stepAgents (env : EngineEnv) (agents : List SubAgent) (userResponse : Str) :
    List SubAgent :=
  if wantsToSkip userResponse = true then agents.map markSkipped
  else agents.map (fun a =>
    if a.status = .active then SubAgentOrchestrator.processResponse a userResponse env.now
    else a)

/-- The all-agents-complete tail of `continueSession` (synthesise,
re-analyse, snapshot, echo, then the three-way decision), starting
from the state `st2` whose agents have just been processed.  `none`
models the TypeError the source would throw reading
`previousSnapshot.snapshotId` off an empty snapshot list. -/
def afterAllComplete (env : EngineEnv) (sessionId userResponse : Str)
    (st2 : MetaLoopState) : Option SessionResult :=
  let agents1 := st2.activeSubAgents
  let st3 := { st2 with status := .synthesizing }
  let synthesis := SubAgentOrchestrator.synthesizeFindings env.synthLLM agents1
  let newAnalysis := env.analysis
  let st4 := { st3 with
    previousAmbiguityScore := some st3.currentAmbiguityScore
    currentAmbiguityScore := newAnalysis.score }
  match st4.intentSnapshots.getLast? with
  | none => none
  | some previousSnapshot =>
    let newSnapshot := IntentSnapshotManager.createSnapshot env.snapshotId env.now
      env.prevSnapshotLookup sessionId userResponse newAnalysis.score
      synthesis.extractedIntent synthesis.confidence (some previousSnapshot.snapshotId)
    let st5 := { st4 with intentSnapshots := st4.intentSnapshots ++ [newSnapshot] }
    let goalEcho := GoalEchoGenerator.generateEcho synthesis.extractedIntent
      synthesis.confidence newAnalysis.score
    let st6 := { st5 with currentGoalEcho := some goalEcho }
    if synthesis.confidence > 0.7 ∧ newAnalysis.score < 40 then
      let st7 := { st6 with status := .ready }
      let response := goalEcho.formattedDisplay ++ "\n\n".toList ++ synthesis.summary
      let st8 := { st7 with conversationHistory := st7.conversationHistory
        ++ [{ role := .assistant, content := response, timestamp := env.now }] }
      some { state := st8, response := response, needsClarification := false }
    else if wantsToSkip userResponse = true then
      let st7 := { st6 with status := .ready }
      let response := goalEcho.formattedDisplay
        ++ ("\n\nâœ… Proceeding with the information provided. "
            ++ "Ready to generate your agent!").toList
      let st8 := { st7 with conversationHistory := st7.conversationHistory
        ++ [{ role := .assistant, content := response, timestamp := env.now }] }
      some { state := st8, response := response, needsClarification := false }
    else
      let st7 := { st6 with status := .clarifying }
      let newAgents := SubAgentOrchestrator.spawnAgents env.spawnIds env.spawnLLMQuestions
        newAnalysis.recommendedStrategy userResponse newAnalysis.score
      let st8 := { st7 with activeSubAgents := newAgents }
      let progressUpdate := GoalEchoGenerator.generateProgressUpdate
        (match st8.previousAmbiguityScore with
         | some p => if p = 0 then 100 else p
         | none => 100)
        st8.currentAmbiguityScore st8.iteration
      let response := progressUpdate ++ "\n\n".toList ++ goalEcho.formattedDisplay
        ++ "\n\n".toList ++ generateClarificationResponse st8 newAnalysis
      let st9 := { st8 with conversationHistory := st8.conversationHistory
        ++ [{ role := .assistant, content := response, timestamp := env.now }] }
      some { state := st9, response := response, needsClarification := true }

/-- `continueSession` of MetaLoopEngine.ts.  `memState` is the
in-memory `sessions.get(sessionId)` result, `storedSnapshots` the raw
DynamoDB query result backing `loadSessionState`.  A session found in
neither is started afresh with the response as the initial input. -/
def continueSession (env : EngineEnv) (memState : Option MetaLoopState)
    (storedSnapshots : List IntentSnapshot) (sessionId userResponse : Str) :
    Option SessionResult :=
  match (match memState with
         | some s => some s
         | none => loadSessionState storedSnapshots sessionId) with
  | none => some (startSession env sessionId userResponse)
  | some state0 =>
    let st1 := { state0 with
      iteration := state0.iteration + 1
      conversationHistory := state0.conversationHistory
        ++ [{ role := .user, content := userResponse, timestamp := env.now }] }
    if st1.activeSubAgents.length > 0 then
      let agents1 := stepAgents env st1.activeSubAgents userResponse
      let st2 := { st1 with activeSubAgents := agents1 }
      if agents1.all (fun a => a.status == .completed) then
        afterAllComplete env sessionId userResponse st2
      else
        let result := generateNextQuestions env st2
        let st3 := { st2 with activeSubAgents := result.1 }
        let st4 := { st3 with conversationHistory := st3.conversationHistory
          ++ [{ role := .assistant, content := result.2, timestamp := env.now }] }
        some { state := st4, response := result.2, needsClarification := true }
    else
      some { state := st1
             response := "Session state error. Please start a new session.".toList
             needsClarification := false }

end MetaLoopEngine

/-!
## Engine-driven orchestrator operation sequences

`MetaLoopEngine.continueSession` filters on `a.status === 'active'`
before calling `processResponse`, and `generateNextQuestions` filters
the same way before `generateNextQuestion`: an engine-driven operation
never touches a non-active agent.
-/

inductive OrchestratorOp where
  | genQuestion (llmResult : Option Str) (userContext : Str)
  | procResponse (userResponse : Str) (now : ℕ)
deriving Repr

/-- One engine-driven orchestrator operation on one agent. -/
def engineStep (agent : SubAgent) (op : OrchestratorOp) : SubAgent :=
  match op with
  | .genQuestion llm ctx =>
    if agent.status = .active then SubAgentOrchestrator.generateNextQuestion llm agent ctx
    else agent
  | .procResponse r now =>
    if agent.status = .active then SubAgentOrchestrator.processResponse agent r now
    else agent

def runOps (agent : SubAgent) (ops : List OrchestratorOp) : SubAgent :=
  ops.foldl engineStep agent

/-- The inductive invariant behind the question cap: the counter never
exceeds the cap, and an agent still active has strictly fewer answers
than the cap. -/
def agentInv (a : SubAgent) : Prop :=
  a.questionsAsked ≤ a.maxQuestions ∧ (a.status = .active → a.questionsAsked < a.maxQuestions)

/-- A concrete spawned scope agent carrying its first question, used by
concrete instantiations below. -/
def sampleAgent : SubAgent :=
  { SubAgentOrchestrator.createAgent "agent-1".toList .scope "build an app".toList with
      currentQuestion := some "What specific thing do you want to build or create?".toList }

/-- A concrete engine environment for the concrete instantiations
below. -/
def sampleEnv : EngineEnv :=
  { now := 0
    analysis := AmbiguityDetector.createDefaultAnalysis "build an app".toList
    snapshotId := "snap-1".toList
    prevSnapshotLookup := none
    spawnIds := fun _ => "agent-id".toList
    spawnLLMQuestions := fun _ => none
    synthLLM := none
    nextQuestionLLM := fun _ => none }

def sampleSnapshot : IntentSnapshot :=
  { snapshotId := "snap-0".toList
    sessionId := "session-1".toList
    timestamp := 0
    ambiguityScore := 80
    userInput := "build an app".toList
    extractedIntent :=
      { goal := some "build an app".toList, scope := none, constraints := none
        successCriteria := none, emotionalContext := none }
    confidence := 0.3
    driftVector := none }

/-- A concrete mid-clarification session state with one active agent. -/
def sampleActiveState : MetaLoopState :=
  { sessionId := "session-1".toList
    iteration := 1
    currentAmbiguityScore := 80
    previousAmbiguityScore := none
    activeSubAgents := [sampleAgent]
    conversationHistory := []
    intentSnapshots := [sampleSnapshot]
    currentGoalEcho := none
    status := .clarifying }

/-- A concrete session state with no active agents (the shape every
snapshot-reconstructed state has). -/
def sampleEmptyState : MetaLoopState :=
  { sampleActiveState with activeSubAgents := [] }

theorem isEmpty_false_of_ne_nil {q : Str} (hne : q ≠ []) : q.isEmpty = false := by
  cases q with
  | nil => exact absurd rfl hne
  | cons c cs => rfl

/-- Unfolding of `processResponse` when a non-empty current question is
present: the guard falls away and the body flattens into three plain
branches. -/
theorem processResponse_eq (a : SubAgent) (r : Str) (n : ℕ) (q : Str)
    (hq : a.currentQuestion = some q) (hne : q ≠ []) :
    SubAgentOrchestrator.processResponse a r n =
      (if SubAgentOrchestrator.isNoInfoResponse r = true then
        { a with
          sandbox := { a.sandbox with
            conversationHistory :=
              a.sandbox.conversationHistory ++ [(⟨q, r, n⟩ : QAEntry)] }
          questionsAsked := a.questionsAsked + 1
          status := .completed }
       else if a.questionsAsked + 1 ≥ a.maxQuestions
          ∨ min 1 (a.sandbox.confidence + 0.4) > 0.8 then
        { a with
          sandbox := { a.sandbox with
            conversationHistory :=
              a.sandbox.conversationHistory ++ [(⟨q, r, n⟩ : QAEntry)]
            findings := a.sandbox.findings ++ SubAgentOrchestrator.extractFindings r
            confidence := min 1 (a.sandbox.confidence + 0.4) }
          questionsAsked := a.questionsAsked + 1
          status := .completed }
       else
        { a with
          sandbox := { a.sandbox with
            conversationHistory :=
              a.sandbox.conversationHistory ++ [(⟨q, r, n⟩ : QAEntry)]
            findings := a.sandbox.findings ++ SubAgentOrchestrator.extractFindings r
            confidence := min 1 (a.sandbox.confidence + 0.4) }
          questionsAsked := a.questionsAsked + 1 }) := by
  unfold SubAgentOrchestrator.processResponse
  split
  next hnone => rw [hq] at hnone; cases hnone
  next q' heq2 =>
    rw [hq] at heq2
    injection heq2 with h
    subst h
    by_cases hni : SubAgentOrchestrator.isNoInfoResponse r = true
    · simp only [isEmpty_false_of_ne_nil hne, Bool.false_eq_true, if_false, hni, if_true]
    · simp only [isEmpty_false_of_ne_nil hne, Bool.false_eq_true, if_false, hni]


theorem generateNextQuestion_counters (llm : Option Str) (agent : SubAgent) (ctx : Str) :
    (SubAgentOrchestrator.generateNextQuestion llm agent ctx).questionsAsked
        = agent.questionsAsked
    ∧ (SubAgentOrchestrator.generateNextQuestion llm agent ctx).maxQuestions
        = agent.maxQuestions
    ∧ (SubAgentOrchestrator.generateNextQuestion llm agent ctx).status = agent.status := by
  cases llm with
  | some content => simp [SubAgentOrchestrator.generateNextQuestion]
  | none =>
    simp only [SubAgentOrchestrator.generateNextQuestion]
    split <;> simp

theorem processResponse_inv_step (agent : SubAgent) (r : Str) (n : ℕ)
    (h1 : agent.questionsAsked < agent.maxQuestions) :
    (SubAgentOrchestrator.processResponse agent r n).questionsAsked
        ≤ (SubAgentOrchestrator.processResponse agent r n).maxQuestions
    ∧ ((SubAgentOrchestrator.processResponse agent r n).status = .active →
        (SubAgentOrchestrator.processResponse agent r n).questionsAsked
          < (SubAgentOrchestrator.processResponse agent r n).maxQuestions) := by
  cases hcq : agent.currentQuestion with
  | none =>
    have heq0 : SubAgentOrchestrator.processResponse agent r n = agent := by
      unfold SubAgentOrchestrator.processResponse
      rw [hcq]
    rw [heq0]
    exact ⟨le_of_lt h1, fun _ => h1⟩
  | some q =>
    by_cases hqe : q = []
    · subst hqe
      have heq0 : SubAgentOrchestrator.processResponse agent r n = agent := by
        unfold SubAgentOrchestrator.processResponse
        rw [hcq]
        simp
      rw [heq0]
      exact ⟨le_of_lt h1, fun _ => h1⟩
    · rw [processResponse_eq agent r n q hcq hqe]
      split_ifs with hni hcond
      · exact ⟨h1, fun habs => by simp at habs⟩
      · exact ⟨h1, fun habs => by simp at habs⟩
      · refine ⟨h1, fun _ => ?_⟩
        exact lt_of_not_le (fun hle => hcond (Or.inl hle))

theorem engineStep_inv (a : SubAgent) (op : OrchestratorOp) (h : agentInv a) :
    agentInv (engineStep a op) := by
  cases op with
  | genQuestion llm ctx =>
    by_cases ha : a.status = .active
    · have hc := generateNextQuestion_counters llm a ctx
      simp only [engineStep, ha, if_true]
      exact ⟨hc.1 ▸ hc.2.1 ▸ h.1, fun hs => hc.1 ▸ hc.2.1 ▸ h.2 (hc.2.2 ▸ hs)⟩
    · simpa [engineStep, ha] using h
  | procResponse r now =>
    by_cases ha : a.status = .active
    · simp only [engineStep, ha, if_true]
      exact processResponse_inv_step a r now (h.2 ha)
    · simpa [engineStep, ha] using h

theorem runOps_inv (ops : List OrchestratorOp) :
    ∀ (a : SubAgent), agentInv a → agentInv (runOps a ops) := by
  induction ops with
  | nil => intro a h; exact h
  | cons op rest ih =>
    intro a h
    exact ih (engineStep a op) (engineStep_inv a op h)

theorem processResponse_preserves_question (a : SubAgent) (r : Str) (n : ℕ) (q : Str)
    (hq : a.currentQuestion = some q) (hne : q ≠ []) :
    (SubAgentOrchestrator.processResponse a r n).currentQuestion = a.currentQuestion := by
  rw [processResponse_eq a r n q hq hne]
  split_ifs <;> rfl

theorem processResponse_preserves_max (a : SubAgent) (r : Str) (n : ℕ) (q : Str)
    (hq : a.currentQuestion = some q) (hne : q ≠ []) :
    (SubAgentOrchestrator.processResponse a r n).maxQuestions = a.maxQuestions := by
  rw [processResponse_eq a r n q hq hne]
  split_ifs <;> rfl

theorem processResponse_qa (a : SubAgent) (r : Str) (n : ℕ) (q : Str)
    (hq : a.currentQuestion = some q) (hne : q ≠ []) :
    (SubAgentOrchestrator.processResponse a r n).questionsAsked = a.questionsAsked + 1 := by
  rw [processResponse_eq a r n q hq hne]
  split_ifs <;> rfl

/-- C4.  `processResponse` appends the Q/A to the agent's history and
increments `questionsAsked`; a no-info response completes the agent at
once without findings or confidence change; otherwise it appends the
(at most 3) extracted findings, raises confidence by 0.4 capped at 1,
and the agent completes exactly when `questionsAsked >= maxQuestions`
or the new confidence exceeds 0.8.  Agents are created with
`maxQuestions = 2`, and two responses complete a scope agent. -/
theorem processResponse_spec (agent : SubAgent) (userResponse : Str) (now : ℕ) (q : Str)
    (hq : agent.currentQuestion = some q) (hne : q ≠ [])
    (hact : agent.status = .active) :
    ((SubAgentOrchestrator.processResponse agent userResponse now).sandbox.conversationHistory
        = agent.sandbox.conversationHistory ++ [(⟨q, userResponse, now⟩ : QAEntry)])
    ∧ (SubAgentOrchestrator.processResponse agent userResponse now).questionsAsked
        = agent.questionsAsked + 1
    ∧ (SubAgentOrchestrator.isNoInfoResponse userResponse = true →
        (SubAgentOrchestrator.processResponse agent userResponse now).status = .completed
        ∧ (SubAgentOrchestrator.processResponse agent userResponse now).sandbox.findings
            = agent.sandbox.findings
        ∧ (SubAgentOrchestrator.processResponse agent userResponse now).sandbox.confidence
            = agent.sandbox.confidence)
    ∧ (SubAgentOrchestrator.isNoInfoResponse userResponse = false →
        (SubAgentOrchestrator.processResponse agent userResponse now).sandbox.findings
            = agent.sandbox.findings ++ SubAgentOrchestrator.extractFindings userResponse
        ∧ (SubAgentOrchestrator.extractFindings userResponse).length ≤ 3
        ∧ (SubAgentOrchestrator.processResponse agent userResponse now).sandbox.confidence
            = min 1 (agent.sandbox.confidence + 0.4)
        ∧ ((SubAgentOrchestrator.processResponse agent userResponse now).status = .completed ↔
            agent.maxQuestions ≤ agent.questionsAsked + 1
            ∨ (0.8 : ℚ) < min 1 (agent.sandbox.confidence + 0.4)))
    ∧ (∀ (id input : Str) (t : SubAgentType),
        (SubAgentOrchestrator.createAgent id t input).maxQuestions = 2)
    ∧ (∀ (id input q1 r1 r2 : Str) (n1 n2 : ℕ), q1 ≠ [] →
        (SubAgentOrchestrator.processResponse (SubAgentOrchestrator.processResponse
            { SubAgentOrchestrator.createAgent id .scope input with
                currentQuestion := some q1 } r1 n1) r2 n2).status = .completed) := by
  have hqe : q.isEmpty = false := isEmpty_false_of_ne_nil hne
  have hlen : (SubAgentOrchestrator.extractFindings userResponse).length ≤ 3 := by
    unfold SubAgentOrchestrator.extractFindings
    by_cases hf : ((((jsSplitSentences userResponse).filter
        (fun s => 10 < (jsTrim s).length)).take 3).map jsTrim).isEmpty = true
    · simp only [hf, if_true]
      simp
    · simp only [hf, Bool.false_eq_true, if_false]
      simpa using List.length_take_le 3 _
  have heq := processResponse_eq agent userResponse now q hq hne
  refine ⟨?_, processResponse_qa agent userResponse now q hq hne, ?_, ?_, fun _ _ _ => rfl, ?_⟩
  · rw [heq]
    split_ifs <;> rfl
  · intro hni
    rw [heq, if_pos hni]
    exact ⟨rfl, rfl, rfl⟩
  · intro hni
    rw [heq, if_neg (by simp [hni])]
    refine ⟨?_, hlen, ?_, ?_⟩
    · split_ifs <;> rfl
    · split_ifs <;> rfl
    · split_ifs with hcond
      · exact iff_of_true rfl hcond
      · refine iff_of_false (fun habs => ?_) hcond
        have : agent.status = .completed := habs
        rw [hact] at this
        simp at this
  · intro id input q1 r1 r2 n1 n2 hq1
    have hq0 : ({ SubAgentOrchestrator.createAgent id .scope input with
        currentQuestion := some q1 } : SubAgent).currentQuestion = some q1 := rfl
    have hcq1 : (SubAgentOrchestrator.processResponse
        { SubAgentOrchestrator.createAgent id .scope input with
          currentQuestion := some q1 } r1 n1).currentQuestion = some q1 :=
      (processResponse_preserves_question _ r1 n1 q1 hq0 hq1).trans hq0
    have hqa1 : (SubAgentOrchestrator.processResponse
        { SubAgentOrchestrator.createAgent id .scope input with
          currentQuestion := some q1 } r1 n1).questionsAsked = 1 :=
      processResponse_qa _ r1 n1 q1 hq0 hq1
    have hmax1 : (SubAgentOrchestrator.processResponse
        { SubAgentOrchestrator.createAgent id .scope input with
          currentQuestion := some q1 } r1 n1).maxQuestions = 2 :=
      processResponse_preserves_max _ r1 n1 q1 hq0 hq1
    rw [processResponse_eq _ r2 n2 q1 hcq1 hq1]
    split_ifs with hni hcond
    · rfl
    · rfl
    · refine absurd (Or.inl ?_) hcond
      rw [hmax1, hqa1]

/-- C9.  A response whose lowercased trimmed text contains a no-info
phrase — including substantive answers like "use Node.js", whose
"node" contains the phrase "no" — still appends the Q/A and increments
the counter, but completes the agent with findings and confidence
untouched. -/
theorem processResponse_noInfo_spec (agent : SubAgent) (userResponse : Str) (now : ℕ)
    (q : Str) (hq : agent.currentQuestion = some q) (hne : q ≠ [])
    (hno : SubAgentOrchestrator.isNoInfoResponse userResponse = true) :
    SubAgentOrchestrator.processResponse agent userResponse now =
      { agent with
        sandbox := { agent.sandbox with
          conversationHistory :=
            agent.sandbox.conversationHistory ++ [(⟨q, userResponse, now⟩ : QAEntry)] }
        questionsAsked := agent.questionsAsked + 1
        status := .completed } := by
  rw [processResponse_eq agent userResponse now q hq hne, if_pos hno]

/-- C9 witness: the concrete response "use Node.js" is classified as
no-info and completes the sample scope agent without findings. -/
theorem processResponse_noInfo_spec_witness :
    SubAgentOrchestrator.processResponse sampleAgent "use Node.js".toList 7 =
      { sampleAgent with
        sandbox := { sampleAgent.sandbox with
          conversationHistory := sampleAgent.sandbox.conversationHistory
            ++ [(⟨"What specific thing do you want to build or create?".toList,
                 "use Node.js".toList, 7⟩ : QAEntry)] }
        questionsAsked := sampleAgent.questionsAsked + 1
        status := .completed } :=
  processResponse_noInfo_spec sampleAgent "use Node.js".toList 7 _ rfl (by decide) (by decide)

/-- C4 witness: the sample agent's hypotheses hold and one concrete
response increments its counter. -/
theorem processResponse_spec_witness :
    (SubAgentOrchestrator.processResponse sampleAgent "skip".toList 5).questionsAsked
      = sampleAgent.questionsAsked + 1 :=
  (processResponse_spec sampleAgent "skip".toList 5 _ rfl (by decide) rfl).2.1

/-- C8 (amended): over engine-driven operation sequences — the loop
engine invokes `generateNextQuestion` and `processResponse` only on
agents whose status is still `active` — every spawned agent keeps
`questionsAsked <= maxQuestions`, and a completed agent is left
entirely untouched (in particular no further question is generated for
it in the same spawn batch). -/
theorem questionsAsked_le_max_engine_driven :
    (∀ (ids : ℕ → Str) (llmQs : ℕ → Option Str) (strategy input : Str) (score : ℚ)
        (ops : List OrchestratorOp) (a : SubAgent),
        a ∈ SubAgentOrchestrator.spawnAgents ids llmQs strategy input score →
        (runOps a ops).questionsAsked ≤ (runOps a ops).maxQuestions)
    ∧ (∀ (a : SubAgent) (op : OrchestratorOp),
        a.status = .completed → engineStep a op = a) := by
  constructor
  · intro ids llmQs strategy input score ops a ha
    unfold SubAgentOrchestrator.spawnAgents at ha
    obtain ⟨⟨i, ag⟩, hp, rfl⟩ := List.mem_map.mp ha
    obtain ⟨-, hp2⟩ := List.of_mem_zip hp
    obtain ⟨p2, -, rfl⟩ := List.mem_map.mp hp2
    have hinv0 : agentInv (SubAgentOrchestrator.createAgent (ids p2.1) p2.2 input) := by
      constructor
      · simp [SubAgentOrchestrator.createAgent]
      · intro _
        simp [SubAgentOrchestrator.createAgent]
    have hc := generateNextQuestion_counters (llmQs i)
      (SubAgentOrchestrator.createAgent (ids p2.1) p2.2 input) input
    have hinv1 : agentInv (SubAgentOrchestrator.generateNextQuestion (llmQs i)
        (SubAgentOrchestrator.createAgent (ids p2.1) p2.2 input) input) := by
      refine ⟨?_, ?_⟩
      · rw [hc.1, hc.2.1]
        exact hinv0.1
      · intro hs
        rw [hc.1, hc.2.1]
        exact hinv0.2 (hc.2.2 ▸ hs)
    exact (runOps_inv ops _ hinv1).1
  · intro a op h
    cases op <;> simp [engineStep, h]

/-- C8 counterexample: the raw orchestrator `processResponse` carries
no status guard, so calling it a third time on an agent already
completed after two responses drives `questionsAsked` to 3 while
`maxQuestions` is 2 — the claim as stated over arbitrary orchestrator
operation sequences fails. -/
theorem questionsAsked_cap_violated_unfiltered :
    SubAgentOrchestrator.spawnAgents (fun _ => "agent-1".toList) (fun _ => none)
      "scope".toList "build an app".toList 50 = [sampleAgent]
    ∧ (SubAgentOrchestrator.processResponse (SubAgentOrchestrator.processResponse
      (SubAgentOrchestrator.processResponse sampleAgent "skip".toList 1) "skip".toList 2)
      "skip".toList 3).questionsAsked = 3
    ∧ sampleAgent.maxQuestions = 2
    ∧ (SubAgentOrchestrator.processResponse (SubAgentOrchestrator.processResponse
        sampleAgent "skip".toList 1) "skip".toList 2).status = AgentStatus.completed := by
  have hd : SubAgentOrchestrator.determineAgentTypes "scope".toList 50
      = [SubAgentType.scope] := by
    unfold SubAgentOrchestrator.determineAgentTypes
    rw [if_neg (not_or.mpr ⟨by decide, by norm_num⟩), if_pos rfl]
  have hsp : SubAgentOrchestrator.spawnAgents (fun _ => "agent-1".toList) (fun _ => none)
      "scope".toList "build an app".toList 50 = [sampleAgent] := by
    unfold SubAgentOrchestrator.spawnAgents
    rw [hd]
    decide
  exact ⟨hsp, by decide, rfl, by decide⟩

theorem foldl_if_add_eq_countP (c : ℕ) (p : Str → Bool) :
    ∀ (l : List Str) (s : ℕ),
      l.foldl (fun acc w => if p w then acc + c else acc) s = s + c * l.countP p
  | [], s => by simp
  | w :: ws, s => by
    by_cases h : p w = true
    · simp [List.foldl_cons, h, foldl_if_add_eq_countP c p ws, List.countP_cons]
      ring
    · simp [List.foldl_cons, h, foldl_if_add_eq_countP c p ws, List.countP_cons]

theorem calculateSimpleAmbiguityScore_eq_spec (input : Str) :
    AmbiguityDetector.calculateSimpleAmbiguityScore input
      = AmbiguityDetector.specHeuristicScore input := by
  have heta : ∀ (l : List Str) (lo : Str),
      l.countP (fun w => jsIncludes lo w) = l.countP (jsIncludes lo) :=
    fun _ _ => rfl
  unfold AmbiguityDetector.calculateSimpleAmbiguityScore
    AmbiguityDetector.specHeuristicScore
  simp only [foldl_if_add_eq_countP, heta]
  split_ifs <;> omega

/-- C3.  With the backend unavailable, `analyze` falls back to the
deterministic heuristic: the score is the additive formula over
hedging words (+20 each), vague words (+25 each), uncertainty phrases
(+30 each), a question mark (+15), fewer than 5 words (+30), no
digits/capitalised token on short input (+20) and a generic action
without specifics (+25), clamped to 100; the strategy is multi above
70 and scope otherwise; and the result does not depend on the
conversation history, so repeated calls agree exactly. -/
theorem analyze_fallback_heuristic (input : Str) (h₁ h₂ : List Str) :
    (AmbiguityDetector.analyze none input h₁).score
        = (AmbiguityDetector.specHeuristicScore input : ℚ)
    ∧ (AmbiguityDetector.analyze none input h₁).recommendedStrategy
        = (if AmbiguityDetector.calculateSimpleAmbiguityScore input > 70
           then "multi".toList else "scope".toList)
    ∧ (AmbiguityDetector.analyze none input h₁).signals
        = AmbiguityDetector.detectSimpleSignals input
    ∧ AmbiguityDetector.analyze none input h₁ = AmbiguityDetector.analyze none input h₂ := by
  refine ⟨?_, rfl, rfl, rfl⟩
  have hs : (AmbiguityDetector.analyze none input h₁).score
      = ((AmbiguityDetector.calculateSimpleAmbiguityScore input : ℕ) : ℚ) := rfl
  rw [hs, calculateSimpleAmbiguityScore_eq_spec]

/-- C3 witness: the theorem applied at a concrete input. -/
theorem analyze_fallback_heuristic_witness :
    (AmbiguityDetector.analyze none "maybe a tool".toList []).score
        = (AmbiguityDetector.specHeuristicScore "maybe a tool".toList : ℚ)
    ∧ (AmbiguityDetector.analyze none "maybe a tool".toList []).recommendedStrategy
        = (if AmbiguityDetector.calculateSimpleAmbiguityScore "maybe a tool".toList > 70
           then "multi".toList else "scope".toList)
    ∧ (AmbiguityDetector.analyze none "maybe a tool".toList []).signals
        = AmbiguityDetector.detectSimpleSignals "maybe a tool".toList
    ∧ AmbiguityDetector.analyze none "maybe a tool".toList []
        = AmbiguityDetector.analyze none "maybe a tool".toList ["earlier turn".toList] :=
  analyze_fallback_heuristic "maybe a tool".toList [] ["earlier turn".toList]

theorem add_ite_zero (P : Prop) [Decidable P] (m c : ℚ) :
    (if P then m + c else m) = m + (if P then c else 0) := by
  split_ifs <;> simp

theorem ite_nat_mul_pos (n : ℕ) :
    (if n > 0 then 0.15 * (n : ℚ) else 0) = 0.15 * (n : ℚ) := by
  split_ifs with h
  · rfl
  · have hn : n = 0 := by omega
    simp [hn]

theorem calculateDrift_magnitude_eq (previous current : IntentSnapshot) :
    (IntentSnapshotManager.calculateDrift previous current).magnitude
      = min 1 (IntentSnapshotManager.driftMagnitudeRaw
          (decide (previous.extractedIntent.goal ≠ current.extractedIntent.goal))
          (decide (previous.extractedIntent.scope ≠ current.extractedIntent.scope))
          ((current.extractedIntent.constraints.getD []).filter
            (fun c => !((previous.extractedIntent.constraints.getD []).contains c))).length
          ((current.extractedIntent.successCriteria.getD []).filter
            (fun c => !((previous.extractedIntent.successCriteria.getD []).contains c))).length
          |current.ambiguityScore - previous.ambiguityScore|) := by
  unfold IntentSnapshotManager.calculateDrift IntentSnapshotManager.driftMagnitudeRaw
  simp only [decide_eq_true_eq, add_ite_zero, ite_nat_mul_pos]
  congr 1
  ring

theorem driftMagnitudeRaw_nonneg (g s : Bool) (n m : ℕ) (d : ℚ) (hd : 0 ≤ d) :
    0 ≤ IntentSnapshotManager.driftMagnitudeRaw g s n m d := by
  have hn : (0:ℚ) ≤ (n:ℚ) := Nat.cast_nonneg n
  have hm : (0:ℚ) ≤ (m:ℚ) := Nat.cast_nonneg m
  unfold IntentSnapshotManager.driftMagnitudeRaw
  split_ifs <;> linarith

/-- C5.  The drift magnitude between two consecutive snapshots equals
min(1, 0.4 if the goal changed + 0.2 if the scope changed + 0.15 per
newly added constraint + 0.15 per newly added success criterion +
|score delta|/200 when that delta exceeds 20); consequently it always
lies in [0,1], and the clamped sum is monotonically non-decreasing in
every changed-field indicator and count (and in the score delta). -/
theorem drift_magnitude_spec :
    (∀ previous current : IntentSnapshot,
      (IntentSnapshotManager.calculateDrift previous current).magnitude
        = min 1 (IntentSnapshotManager.driftMagnitudeRaw
            (decide (previous.extractedIntent.goal ≠ current.extractedIntent.goal))
            (decide (previous.extractedIntent.scope ≠ current.extractedIntent.scope))
            ((current.extractedIntent.constraints.getD []).filter
              (fun c => !((previous.extractedIntent.constraints.getD []).contains c))).length
            ((current.extractedIntent.successCriteria.getD []).filter
              (fun c => !((previous.extractedIntent.successCriteria.getD []).contains c))).length
            |current.ambiguityScore - previous.ambiguityScore|))
    ∧ (∀ previous current : IntentSnapshot,
        0 ≤ (IntentSnapshotManager.calculateDrift previous current).magnitude
        ∧ (IntentSnapshotManager.calculateDrift previous current).magnitude ≤ 1)
    ∧ (∀ (g₁ g₂ s₁ s₂ : Bool) (n₁ n₂ m₁ m₂ : ℕ) (d₁ d₂ : ℚ),
        (g₁ = true → g₂ = true) → (s₁ = true → s₂ = true) →
        n₁ ≤ n₂ → m₁ ≤ m₂ → 0 ≤ d₁ → d₁ ≤ d₂ →
        min 1 (IntentSnapshotManager.driftMagnitudeRaw g₁ s₁ n₁ m₁ d₁)
          ≤ min 1 (IntentSnapshotManager.driftMagnitudeRaw g₂ s₂ n₂ m₂ d₂)) := by
  refine ⟨calculateDrift_magnitude_eq, ?_, ?_⟩
  · intro previous current
    rw [calculateDrift_magnitude_eq]
    constructor
    · exact le_min (by norm_num)
        (driftMagnitudeRaw_nonneg _ _ _ _ _ (abs_nonneg _))
    · exact min_le_left _ _
  · intro g₁ g₂ s₁ s₂ n₁ n₂ m₁ m₂ d₁ d₂ hg hs hn hm hd0 hd
    refine min_le_min le_rfl ?_
    unfold IntentSnapshotManager.driftMagnitudeRaw
    have t1 : (if g₁ = true then (0.4:ℚ) else 0) ≤ (if g₂ = true then (0.4:ℚ) else 0) := by
      cases g₁ with
      | false => cases g₂ <;> simp <;> norm_num
      | true => rw [hg rfl]
    have t2 : (if s₁ = true then (0.2:ℚ) else 0) ≤ (if s₂ = true then (0.2:ℚ) else 0) := by
      cases s₁ with
      | false => cases s₂ <;> simp <;> norm_num
      | true => rw [hs rfl]
    have t3 : (0.15:ℚ) * (n₁:ℚ) ≤ 0.15 * (n₂:ℚ) := by
      have : (n₁:ℚ) ≤ (n₂:ℚ) := Nat.cast_le.mpr hn
      linarith
    have t4 : (0.15:ℚ) * (m₁:ℚ) ≤ 0.15 * (m₂:ℚ) := by
      have : (m₁:ℚ) ≤ (m₂:ℚ) := Nat.cast_le.mpr hm
      linarith
    have t5 : (if d₁ > 20 then d₁ / 200 else 0) ≤ (if d₂ > 20 then d₂ / 200 else 0) := by
      split_ifs with h1 h2 h2
      · linarith
      · exact absurd (lt_of_lt_of_le h1 hd) h2
      · linarith
      · exact le_refl 0
    exact add_le_add (add_le_add (add_le_add (add_le_add t1 t2) t3) t4) t5

theorem handle_eq_tiers (env : FallbackEnv) (request : FallbackRequest) :
    FallbackHandler.handle env request =
      (match FallbackHandler.tier1Response env request with
       | some content =>
         { strategy := .alternative_backend, response := .backendResponse content
           requiresUserInput := false }
       | none =>
         match FallbackHandler.tier2Response env with
         | some cached =>
           { strategy := .cache, response := .cachedResponse cached
             requiresUserInput := false }
         | none => FallbackHandler.handleFromTier3 request) := by
  unfold FallbackHandler.handle FallbackHandler.tier1Response
    FallbackHandler.handleFromTier2 FallbackHandler.tier2Response
  by_cases h1 : FallbackHandler.tier1Eligible request = true
  · rw [if_pos h1, if_pos h1]
    rcases env.alternativeBackendResult with u | content
    · rcases env.cacheResult with u2 | copt
      · rfl
      · cases copt <;> rfl
    · rfl
  · rw [if_neg h1, if_neg h1]
    rcases env.cacheResult with u2 | copt
    · rfl
    · cases copt <;> rfl

/-- C1.  `handle` is a total function: for every request and every
outcome of the external calls it returns a well-formed response
object (never throws, never undefined).  It tries the tiers in strict
order — alternative backend, cache, static response, manual — each
tier's failure being swallowed, and `requiresUserInput = true` holds
exactly when the three prior tiers all produced nothing, in which
case the result is the fixed terminal manual-input response. -/
theorem fallbackHandle_spec (env : FallbackEnv) (request : FallbackRequest) :
    ((FallbackHandler.handle env request).requiresUserInput = true ↔
      (FallbackHandler.tier1Response env request = none
        ∧ FallbackHandler.tier2Response env = none
        ∧ FallbackHandler.getStaticResponse request = none))
    ∧ ((FallbackHandler.handle env request).requiresUserInput = true ↔
        FallbackHandler.handle env request = FallbackHandler.manualResponse)
    ∧ (∀ content : Str, FallbackHandler.tier1Response env request = some content →
        FallbackHandler.handle env request =
          { strategy := .alternative_backend, response := .backendResponse content
            requiresUserInput := false })
    ∧ (∀ cached : Str, FallbackHandler.tier1Response env request = none →
        FallbackHandler.tier2Response env = some cached →
        FallbackHandler.handle env request =
          { strategy := .cache, response := .cachedResponse cached
            requiresUserInput := false })
    ∧ (∀ staticResp : FallbackPayload,
        FallbackHandler.tier1Response env request = none →
        FallbackHandler.tier2Response env = none →
        FallbackHandler.getStaticResponse request = some staticResp →
        FallbackHandler.handle env request =
          { strategy := .static_flow, response := staticResp
            requiresUserInput := false }) := by
  have ht := handle_eq_tiers env request
  rcases h1 : FallbackHandler.tier1Response env request with _ | content <;>
    rcases h2 : FallbackHandler.tier2Response env with _ | cached <;>
      rcases h3 : FallbackHandler.getStaticResponse request with _ | sresp <;>
        refine ⟨?_, ?_, fun c hc => ?_, fun c hn hc => ?_, fun s hn hn2 hs => ?_⟩ <;>
          simp_all [FallbackHandler.handleFromTier3, FallbackHandler.manualResponse]

/-- C7.  Backend disabled: "i want to build something with stuff"
scores above 50 and both "stuff" and "something" are flagged as vague
terms, while the specific REST-API request scores below 50. -/
theorem analyze_concrete_examples :
    (50 : ℚ) < (AmbiguityDetector.analyze none
        "i want to build something with stuff".toList []).score
    ∧ "stuff".toList ∈ (AmbiguityDetector.analyze none
        "i want to build something with stuff".toList []).signals.vagueTerms
    ∧ "something".toList ∈ (AmbiguityDetector.analyze none
        "i want to build something with stuff".toList []).signals.vagueTerms
    ∧ (AmbiguityDetector.analyze none
        ("Build a REST API with Node.js and Express for managing 500 user accounts "
          ++ "with JWT authentication").toList []).score < 50 := by
  have e1 : AmbiguityDetector.calculateSimpleAmbiguityScore
      "i want to build something with stuff".toList = 70 := by decide
  have e2 : AmbiguityDetector.calculateSimpleAmbiguityScore
      ("Build a REST API with Node.js and Express for managing 500 user accounts "
        ++ "with JWT authentication").toList = 0 := by decide
  have hs1 : (AmbiguityDetector.analyze none
      "i want to build something with stuff".toList []).score
      = ((AmbiguityDetector.calculateSimpleAmbiguityScore
          "i want to build something with stuff".toList : ℕ) : ℚ) := rfl
  have hs2 : (AmbiguityDetector.analyze none
      ("Build a REST API with Node.js and Express for managing 500 user accounts "
        ++ "with JWT authentication").toList []).score
      = ((AmbiguityDetector.calculateSimpleAmbiguityScore
          ("Build a REST API with Node.js and Express for managing 500 user accounts "
            ++ "with JWT authentication").toList : ℕ) : ℚ) := rfl
  refine ⟨?_, by decide, by decide, ?_⟩
  · rw [hs1, e1]
    norm_num
  · rw [hs2, e2]
    norm_num

/-- C6.  A `continueSession` for a session id that is neither in the
in-memory map nor reconstructable from the snapshot store surfaces no
not-found error: it is exactly `startSession(sessionId, userResponse)`. -/
theorem continueSession_missing_session (env : EngineEnv)
    (storedSnapshots : List IntentSnapshot) (sessionId userResponse : Str)
    (h : MetaLoopEngine.loadSessionState storedSnapshots sessionId = none) :
    MetaLoopEngine.continueSession env none storedSnapshots sessionId userResponse
      = some (MetaLoopEngine.startSession env sessionId userResponse) := by
  unfold MetaLoopEngine.continueSession
  rw [h]

/-- C6 witness: a session id with an empty snapshot store. -/
theorem continueSession_missing_session_witness :
    MetaLoopEngine.continueSession sampleEnv none [] "session-1".toList
        "build an app".toList
      = some (MetaLoopEngine.startSession sampleEnv "session-1".toList
          "build an app".toList) :=
  continueSession_missing_session sampleEnv [] "session-1".toList
    "build an app".toList rfl

/-- C10.  A `continueSession` on a state with no active sub-agents —
the shape of every state `loadSessionState` reconstructs — returns the
fixed error text with `needsClarification = false`, leaving status,
agents and snapshots unchanged while still counting the turn and
recording the user message. -/
theorem continueSession_empty_agents (env : EngineEnv) (state : MetaLoopState)
    (storedSnapshots : List IntentSnapshot) (sessionId userResponse : Str)
    (h : state.activeSubAgents = []) :
    (MetaLoopEngine.continueSession env (some state) storedSnapshots sessionId userResponse
      = some { state := { state with
                 iteration := state.iteration + 1
                 conversationHistory := state.conversationHistory
                   ++ [{ role := .user, content := userResponse, timestamp := env.now }] }
               response := "Session state error. Please start a new session.".toList
               needsClarification := false })
    ∧ (∀ st : MetaLoopState,
        MetaLoopEngine.loadSessionState storedSnapshots sessionId = some st →
        st.activeSubAgents = []) := by
  constructor
  · unfold MetaLoopEngine.continueSession
    simp only [h, List.length_nil, gt_iff_lt, lt_irrefl, if_false]
  · intro st hst
    simp only [MetaLoopEngine.loadSessionState] at hst
    split at hst
    · cases hst
    · injection hst with h2
      rw [← h2]

/-- C10 witness: the concrete empty-agents state. -/
theorem continueSession_empty_agents_witness :
    MetaLoopEngine.continueSession sampleEnv (some sampleEmptyState) []
        "session-1".toList "more info".toList
      = some { state := { sampleEmptyState with
                 iteration := sampleEmptyState.iteration + 1
                 conversationHistory := sampleEmptyState.conversationHistory
                   ++ [{ role := .user, content := "more info".toList,
                         timestamp := sampleEnv.now }] }
               response := "Session state error. Please start a new session.".toList
               needsClarification := false } :=
  (continueSession_empty_agents sampleEnv sampleEmptyState [] "session-1".toList
    "more info".toList rfl).1

theorem continueSession_allComplete_eq (env : EngineEnv) (state : MetaLoopState)
    (storedSnapshots : List IntentSnapshot) (sessionId userResponse : Str)
    (hne : state.activeSubAgents ≠ [])
    (hall : (MetaLoopEngine.stepAgents env state.activeSubAgents userResponse).all
        (fun a => a.status == .completed) = true) :
    MetaLoopEngine.continueSession env (some state) storedSnapshots sessionId userResponse
      = MetaLoopEngine.afterAllComplete env sessionId userResponse
          { state with
            iteration := state.iteration + 1
            conversationHistory := state.conversationHistory
              ++ [{ role := .user, content := userResponse, timestamp := env.now }]
            activeSubAgents := MetaLoopEngine.stepAgents env state.activeSubAgents
              userResponse } := by
  unfold MetaLoopEngine.continueSession
  have hpos : 0 < state.activeSubAgents.length := List.length_pos_iff_ne_nil.mpr hne
  simp only [gt_iff_lt, hpos, if_true, hall]

theorem afterAllComplete_decision (env : EngineEnv) (sessionId userResponse : Str)
    (st2 : MetaLoopState) (hsnap : st2.intentSnapshots ≠ []) :
    ∃ r : SessionResult,
      MetaLoopEngine.afterAllComplete env sessionId userResponse st2 = some r
      ∧ ((r.state.status = .ready ∧ r.needsClarification = false) ↔
          (((SubAgentOrchestrator.synthesizeFindings env.synthLLM
              st2.activeSubAgents).confidence > 0.7 ∧ env.analysis.score < 40)
            ∨ MetaLoopEngine.wantsToSkip userResponse = true))
      ∧ (¬(((SubAgentOrchestrator.synthesizeFindings env.synthLLM
              st2.activeSubAgents).confidence > 0.7 ∧ env.analysis.score < 40)
            ∨ MetaLoopEngine.wantsToSkip userResponse = true) →
          r.state.status = .clarifying ∧ r.needsClarification = true
          ∧ r.state.activeSubAgents = SubAgentOrchestrator.spawnAgents env.spawnIds
              env.spawnLLMQuestions env.analysis.recommendedStrategy userResponse
              env.analysis.score) := by
  unfold MetaLoopEngine.afterAllComplete
  simp only []
  rcases hlast : st2.intentSnapshots.getLast? with _ | prev
  · exact absurd (List.getLast?_eq_none_iff.mp hlast) hsnap
  · simp only []
    by_cases hc : (SubAgentOrchestrator.synthesizeFindings env.synthLLM
        st2.activeSubAgents).confidence > 0.7 ∧ env.analysis.score < 40
    · rw [if_pos hc]
      exact ⟨_, rfl, iff_of_true ⟨rfl, rfl⟩ (Or.inl hc), fun hcon => absurd (Or.inl hc) hcon⟩
    · rw [if_neg hc]
      by_cases hskip : MetaLoopEngine.wantsToSkip userResponse = true
      · rw [if_pos hskip]
        exact ⟨_, rfl, iff_of_true ⟨rfl, rfl⟩ (Or.inr hskip),
          fun hcon => absurd (Or.inr hskip) hcon⟩
      · rw [if_neg hskip]
        refine ⟨_, rfl, iff_of_false (fun habs => ?_) (by simp [hc, hskip]),
          fun _ => ⟨rfl, rfl, rfl⟩⟩
        exact absurd habs.1 (by simp)

/-- C2.  When all active sub-agents end up completed this turn, the
result has status `ready` and `needsClarification = false` exactly
when the synthesised confidence exceeds 0.7 and the re-computed
ambiguity score is below 40, or the response matched the skip-phrase
set; otherwise the status stays `clarifying`, `needsClarification` is
true, and a fresh agent batch is spawned for the next round. -/
theorem continueSession_ready_decision (env : EngineEnv) (state : MetaLoopState)
    (storedSnapshots : List IntentSnapshot) (sessionId userResponse : Str)
    (hne : state.activeSubAgents ≠ [])
    (hsnap : state.intentSnapshots ≠ [])
    (hall : (MetaLoopEngine.stepAgents env state.activeSubAgents userResponse).all
        (fun a => a.status == .completed) = true) :
    ∃ r : SessionResult,
      MetaLoopEngine.continueSession env (some state) storedSnapshots sessionId userResponse
        = some r
      ∧ ((r.state.status = .ready ∧ r.needsClarification = false) ↔
          (((SubAgentOrchestrator.synthesizeFindings env.synthLLM
              (MetaLoopEngine.stepAgents env state.activeSubAgents
                userResponse)).confidence > 0.7 ∧ env.analysis.score < 40)
            ∨ MetaLoopEngine.wantsToSkip userResponse = true))
      ∧ (¬(((SubAgentOrchestrator.synthesizeFindings env.synthLLM
              (MetaLoopEngine.stepAgents env state.activeSubAgents
                userResponse)).confidence > 0.7 ∧ env.analysis.score < 40)
            ∨ MetaLoopEngine.wantsToSkip userResponse = true) →
          r.state.status = .clarifying ∧ r.needsClarification = true
          ∧ r.state.activeSubAgents = SubAgentOrchestrator.spawnAgents env.spawnIds
              env.spawnLLMQuestions env.analysis.recommendedStrategy userResponse
              env.analysis.score) := by
  obtain ⟨r, hr, hiff, helse⟩ := afterAllComplete_decision env sessionId userResponse
    { state with
      iteration := state.iteration + 1
      conversationHistory := state.conversationHistory
        ++ [{ role := .user, content := userResponse, timestamp := env.now }]
      activeSubAgents := MetaLoopEngine.stepAgents env state.activeSubAgents userResponse }
    (by simpa using hsnap)
  exact ⟨r, (continueSession_allComplete_eq env state storedSnapshots sessionId
    userResponse hne hall).trans hr, hiff, helse⟩

/-- C2 witness: the concrete one-agent state answered with "skip". -/
theorem continueSession_ready_decision_witness :
    ∃ r : SessionResult,
      MetaLoopEngine.continueSession sampleEnv (some sampleActiveState) []
          "session-1".toList "skip".toList
        = some r
      ∧ ((r.state.status = .ready ∧ r.needsClarification = false) ↔
          (((SubAgentOrchestrator.synthesizeFindings sampleEnv.synthLLM
              (MetaLoopEngine.stepAgents sampleEnv sampleActiveState.activeSubAgents
                "skip".toList)).confidence > 0.7 ∧ sampleEnv.analysis.score < 40)
            ∨ MetaLoopEngine.wantsToSkip "skip".toList = true))
      ∧ (¬(((SubAgentOrchestrator.synthesizeFindings sampleEnv.synthLLM
              (MetaLoopEngine.stepAgents sampleEnv sampleActiveState.activeSubAgents
                "skip".toList)).confidence > 0.7 ∧ sampleEnv.analysis.score < 40)
            ∨ MetaLoopEngine.wantsToSkip "skip".toList = true) →
          r.state.status = .clarifying ∧ r.needsClarification = true
          ∧ r.state.activeSubAgents = SubAgentOrchestrator.spawnAgents sampleEnv.spawnIds
              sampleEnv.spawnLLMQuestions sampleEnv.analysis.recommendedStrategy
              "skip".toList sampleEnv.analysis.score) :=
  continueSession_ready_decision sampleEnv sampleActiveState [] "session-1".toList
    "skip".toList (by decide) (by decide) (by decide)

end MetaIntent
